import Mathlib

/-!
Verification of the contact-classification pipeline in
`src/process_contacts.py`.

Strings are modelled as lists of characters, contacts as records of the
three string fields the script manipulates.  Each Lean definition below
mirrors one Python function (or one inlined step of `filter_contacts`).
-/

/-- A Python string, modelled as a list of characters. -/
abbrev Str := List Char

/-- A contact record with the keys Name, Email and Phone, as built by
`parse_vcf`. -/
structure Contact where
  Name : Str
  Email : Str
  Phone : Str
deriving DecidableEq, Repr

/-- The whitespace characters removed by Python `str.strip()` (ASCII range). -/
def pyIsSpace (ch : Char) : Bool :=
  ch == ' ' || ch == '\t' || ch == '\n' || ch == '\r' || ch == '\x0b' || ch == '\x0c'

/-- Python `str.strip()`: drop leading and trailing whitespace. -/
def pyStrip (s : Str) : Str :=
  ((s.dropWhile pyIsSpace).reverse.dropWhile pyIsSpace).reverse

/-- Python `str.replace(" ", "")`: remove every space character. -/
def removeSpaces (s : Str) : Str :=
  s.filter (fun ch => !(ch == ' '))

/-- Python `str.replace("00", "+", 1)`: replace the first occurrence of the
substring `00` by `+`, scanning left to right; leave the string unchanged
when no occurrence exists. -/
def replaceFirst00 : Str → Str
  | '0' :: '0' :: rest => '+' :: rest
  | ch :: rest => ch :: replaceFirst00 rest
  | [] => []

/-- The function `normalize_phone` from `process_contacts.py`:
`phone.strip().replace(" ", "").replace("00", "+", 1)`. -/
def normalize_phone (phone : Str) : Str :=
  replaceFirst00 (removeSpaces (pyStrip phone))

/-- Python substring test `pat in s`. -/
def containsSub (pat : Str) : Str → Bool
  | [] => pat.isEmpty
  | ch :: rest => pat.isPrefixOf (ch :: rest) || containsSub pat rest

/-- Python `str.lower()` (ASCII letters). -/
def pyLower (s : Str) : Str :=
  s.map Char.toLower

def patDoc : Str := ['d', 'o', 'c']
def patDott : Str := ['d', 'o', 't', 't']
def patMedi : Str := ['m', 'e', 'd', 'i']
def patRist : Str := ['r', 'i', 's', 't']
def patRest : Str := ['r', 'e', 's', 't']
def patCern : Str := ['c', 'e', 'r', 'n', '.', 'c', 'h']
def patP41 : Str := ['+', '4', '1']
def patP39 : Str := ['+', '3', '9']
def patP33 : Str := ['+', '3', '3']

/-- The `"Doctors"` filter: `"doc" in name.lower() or "dott" in name.lower()
or "medi" in name.lower()`. -/
def doctors (c : Contact) : Bool :=
  containsSub patDoc (pyLower c.Name) || containsSub patDott (pyLower c.Name) ||
    containsSub patMedi (pyLower c.Name)

/-- The `"Restaurants"` filter: `"rist" in name.lower() or "rest" in name.lower()`. -/
def restaurants (c : Contact) : Bool :=
  containsSub patRist (pyLower c.Name) || containsSub patRest (pyLower c.Name)

/-- The `"cern_emails"` filter: `email.endswith("cern.ch")`. -/
def cern_emails (c : Contact) : Bool :=
  patCern.isSuffixOf c.Email

/-- The `"phone_prefix_41"` filter: `phone.startswith("+41")`. -/
def phone_prefix_41 (c : Contact) : Bool :=
  patP41.isPrefixOf c.Phone

/-- The `"phone_prefix_39"` filter: `phone.startswith("+39")`. -/
def phone_prefix_39 (c : Contact) : Bool :=
  patP39.isPrefixOf c.Phone

/-- The `"phone_prefix_33"` filter: `phone.startswith("+33")`. -/
def phone_prefix_33 (c : Contact) : Bool :=
  patP33.isPrefixOf c.Phone

/-- The field-by-field comparison inside `contact_in_list`. -/
def sameContact (a b : Contact) : Bool :=
  decide (a.Name = b.Name) && decide (a.Email = b.Email) && decide (a.Phone = b.Phone)

/-- The function `contact_in_list` from `process_contacts.py`: membership by Name, Email
and Phone. -/
def contact_in_list (c : Contact) (l : List Contact) : Bool :=
  l.any (fun d => sameContact d c)

/-- The ordered rule list of `filter_contacts` (the `filters` dict, in
insertion order). -/
def rules : List (Contact → Bool) :=
  [doctors, restaurants, cern_emails, phone_prefix_41, phone_prefix_39, phone_prefix_33]

/-- The rule loop of `filter_contacts`: for each rule select the contacts
satisfying it that are not yet in `processed`, then extend `processed` with
the selection.  Returns the bucket list and the final processed list. -/
def runRules : List (Contact → Bool) → List Contact → List Contact →
    List (List Contact) × List Contact
  | [], _, processed => ([], processed)
  | r :: rs, contacts, processed =>
    let bucket := contacts.filter (fun c => r c && !(contact_in_list c processed))
    let rest := runRules rs contacts (processed ++ bucket)
    (bucket :: rest.1, rest.2)

/-- The partition computed by `filter_contacts`: the six rule buckets (in
declaration order) and the `all_others` remainder. -/
def filter_contacts (contacts : List Contact) : List (List Contact) × List Contact :=
  let res := runRules rules contacts []
  (res.1, contacts.filter (fun c => !(contact_in_list c res.2)))

/-- The phone-normalization pass of `filter_contacts`:
`contact["Phone"] = normalize_phone(contact["Phone"])` over the list. -/
def normalizeContacts (contacts : List Contact) : List Contact :=
  contacts.map (fun c => { c with Phone := normalize_phone c.Phone })

/-- The whole classification pipeline: normalize phones, then partition. -/
def pipeline (contacts : List Contact) : List (List Contact) × List Contact :=
  filter_contacts (normalizeContacts contacts)

/-- Check 1 of `filter_contacts`: the sum of all bucket sizes (including
`all_others`) equals the number of input contacts. -/
def countCheck (contacts : List Contact) : Bool :=
  let res := pipeline contacts
  decide ((res.1.map List.length).sum + res.2.length = (normalizeContacts contacts).length)

/- Named unfoldings of the six buckets and the successive processed lists. -/

/-- Bucket of the first rule, `Doctors`. -/
def b1 (cs : List Contact) : List Contact :=
  cs.filter (fun c => doctors c && !(contact_in_list c []))

/-- Processed list after the `Doctors` rule. -/
def pr1 (cs : List Contact) : List Contact := [] ++ b1 cs

/-- Bucket of the second rule, `Restaurants`. -/
def b2 (cs : List Contact) : List Contact :=
  cs.filter (fun c => restaurants c && !(contact_in_list c (pr1 cs)))

/-- Processed list after the `Restaurants` rule. -/
def pr2 (cs : List Contact) : List Contact := pr1 cs ++ b2 cs

/-- Bucket of the third rule, `cern_emails`. -/
def b3 (cs : List Contact) : List Contact :=
  cs.filter (fun c => cern_emails c && !(contact_in_list c (pr2 cs)))

/-- Processed list after the `cern_emails` rule. -/
def pr3 (cs : List Contact) : List Contact := pr2 cs ++ b3 cs

/-- Bucket of the fourth rule, `phone_prefix_41`. -/
def b4 (cs : List Contact) : List Contact :=
  cs.filter (fun c => phone_prefix_41 c && !(contact_in_list c (pr3 cs)))

/-- Processed list after the `phone_prefix_41` rule. -/
def pr4 (cs : List Contact) : List Contact := pr3 cs ++ b4 cs

/-- Bucket of the fifth rule, `phone_prefix_39`. -/
def b5 (cs : List Contact) : List Contact :=
  cs.filter (fun c => phone_prefix_39 c && !(contact_in_list c (pr4 cs)))

/-- Processed list after the `phone_prefix_39` rule. -/
def pr5 (cs : List Contact) : List Contact := pr4 cs ++ b5 cs

/-- Bucket of the sixth rule, `phone_prefix_33`. -/
def b6 (cs : List Contact) : List Contact :=
  cs.filter (fun c => phone_prefix_33 c && !(contact_in_list c (pr5 cs)))

/-- Processed list after the `phone_prefix_33` rule. -/
def pr6 (cs : List Contact) : List Contact := pr5 cs ++ b6 cs

/-- The `all_others` remainder. -/
def remaining (cs : List Contact) : List Contact :=
  cs.filter (fun c => !(contact_in_list c (pr6 cs)))

/-- The result of `filter_contacts` unfolds to the six named buckets plus the remainder. -/
theorem filter_contacts_unfold (cs : List Contact) :
    filter_contacts cs = ([b1 cs, b2 cs, b3 cs, b4 cs, b5 cs, b6 cs], remaining cs) := rfl

/-! ### Membership characterizations -/

theorem bool_not_true {b : Bool} : ¬(b = true) ↔ b = false := by
  cases b <;> simp

theorem sameContact_iff {a b : Contact} : sameContact a b = true ↔ a = b := by
  cases a; cases b
  simp [sameContact, Contact.mk.injEq, and_assoc]

theorem contact_in_list_iff {c : Contact} {l : List Contact} :
    contact_in_list c l = true ↔ c ∈ l := by
  simp [contact_in_list, List.any_eq_true, sameContact_iff]

theorem contact_in_list_eq_false {c : Contact} {l : List Contact} :
    contact_in_list c l = false ↔ c ∉ l := by
  rw [← contact_in_list_iff]
  cases contact_in_list c l <;> simp

theorem mem_filter_proc {r : Contact → Bool} {p cs : List Contact} {c : Contact} :
    c ∈ cs.filter (fun x => r x && !(contact_in_list x p)) ↔
      c ∈ cs ∧ r c = true ∧ c ∉ p := by
  simp [List.mem_filter, Bool.and_eq_true, contact_in_list_eq_false]

theorem mem_b1_iff {cs : List Contact} {c : Contact} :
    c ∈ b1 cs ↔ c ∈ cs ∧ doctors c = true := by
  simp [b1, mem_filter_proc]
  exact fun _ _ => rfl

theorem mem_pr1_iff {cs : List Contact} {c : Contact} :
    c ∈ pr1 cs ↔ c ∈ cs ∧ doctors c = true := by
  simp [pr1, mem_b1_iff]

theorem mem_b2_iff {cs : List Contact} {c : Contact} :
    c ∈ b2 cs ↔ c ∈ cs ∧ doctors c = false ∧ restaurants c = true := by
  simp only [b2, mem_filter_proc, mem_pr1_iff]
  cases h1 : doctors c <;> simp [h1] <;> tauto

theorem mem_pr2_iff {cs : List Contact} {c : Contact} :
    c ∈ pr2 cs ↔ c ∈ cs ∧ (doctors c = true ∨ restaurants c = true) := by
  simp only [pr2, List.mem_append, mem_pr1_iff, mem_b2_iff]
  cases h1 : doctors c <;> simp [h1]

theorem mem_b3_iff {cs : List Contact} {c : Contact} :
    c ∈ b3 cs ↔ c ∈ cs ∧ doctors c = false ∧ restaurants c = false ∧
      cern_emails c = true := by
  simp only [b3, mem_filter_proc, mem_pr2_iff]
  cases h1 : doctors c <;> cases h2 : restaurants c <;> simp [h1, h2] <;> tauto

theorem mem_pr3_iff {cs : List Contact} {c : Contact} :
    c ∈ pr3 cs ↔ c ∈ cs ∧ (doctors c = true ∨ restaurants c = true ∨
      cern_emails c = true) := by
  simp only [pr3, List.mem_append, mem_pr2_iff, mem_b3_iff]
  cases h1 : doctors c <;> cases h2 : restaurants c <;> simp [h1, h2]

theorem mem_b4_iff {cs : List Contact} {c : Contact} :
    c ∈ b4 cs ↔ c ∈ cs ∧ doctors c = false ∧ restaurants c = false ∧
      cern_emails c = false ∧ phone_prefix_41 c = true := by
  simp only [b4, mem_filter_proc, mem_pr3_iff]
  cases h1 : doctors c <;> cases h2 : restaurants c <;> cases h3 : cern_emails c <;>
    simp [h1, h2, h3] <;> tauto

theorem mem_pr4_iff {cs : List Contact} {c : Contact} :
    c ∈ pr4 cs ↔ c ∈ cs ∧ (doctors c = true ∨ restaurants c = true ∨
      cern_emails c = true ∨ phone_prefix_41 c = true) := by
  simp only [pr4, List.mem_append, mem_pr3_iff, mem_b4_iff]
  cases h1 : doctors c <;> cases h2 : restaurants c <;> cases h3 : cern_emails c <;>
    simp [h1, h2, h3]

theorem mem_b5_iff {cs : List Contact} {c : Contact} :
    c ∈ b5 cs ↔ c ∈ cs ∧ doctors c = false ∧ restaurants c = false ∧
      cern_emails c = false ∧ phone_prefix_41 c = false ∧ phone_prefix_39 c = true := by
  simp only [b5, mem_filter_proc, mem_pr4_iff]
  cases h1 : doctors c <;> cases h2 : restaurants c <;> cases h3 : cern_emails c <;>
    cases h4 : phone_prefix_41 c <;> simp [h1, h2, h3, h4] <;> tauto

theorem mem_pr5_iff {cs : List Contact} {c : Contact} :
    c ∈ pr5 cs ↔ c ∈ cs ∧ (doctors c = true ∨ restaurants c = true ∨
      cern_emails c = true ∨ phone_prefix_41 c = true ∨ phone_prefix_39 c = true) := by
  simp only [pr5, List.mem_append, mem_pr4_iff, mem_b5_iff]
  cases h1 : doctors c <;> cases h2 : restaurants c <;> cases h3 : cern_emails c <;>
    cases h4 : phone_prefix_41 c <;> simp [h1, h2, h3, h4]

theorem mem_b6_iff {cs : List Contact} {c : Contact} :
    c ∈ b6 cs ↔ c ∈ cs ∧ doctors c = false ∧ restaurants c = false ∧
      cern_emails c = false ∧ phone_prefix_41 c = false ∧ phone_prefix_39 c = false ∧
      phone_prefix_33 c = true := by
  simp only [b6, mem_filter_proc, mem_pr5_iff]
  cases h1 : doctors c <;> cases h2 : restaurants c <;> cases h3 : cern_emails c <;>
    cases h4 : phone_prefix_41 c <;> cases h5 : phone_prefix_39 c <;>
    simp [h1, h2, h3, h4, h5] <;> tauto

theorem mem_pr6_iff {cs : List Contact} {c : Contact} :
    c ∈ pr6 cs ↔ c ∈ cs ∧ (doctors c = true ∨ restaurants c = true ∨
      cern_emails c = true ∨ phone_prefix_41 c = true ∨ phone_prefix_39 c = true ∨
      phone_prefix_33 c = true) := by
  simp only [pr6, List.mem_append, mem_pr5_iff, mem_b6_iff]
  cases h1 : doctors c <;> cases h2 : restaurants c <;> cases h3 : cern_emails c <;>
    cases h4 : phone_prefix_41 c <;> cases h5 : phone_prefix_39 c <;>
    simp [h1, h2, h3, h4, h5]

theorem mem_rem_iff {cs : List Contact} {c : Contact} :
    c ∈ remaining cs ↔ c ∈ cs ∧ doctors c = false ∧ restaurants c = false ∧
      cern_emails c = false ∧ phone_prefix_41 c = false ∧ phone_prefix_39 c = false ∧
      phone_prefix_33 c = false := by
  simp only [remaining, List.mem_filter, Bool.not_eq_true', contact_in_list_eq_false,
    mem_pr6_iff]
  cases h1 : doctors c <;> cases h2 : restaurants c <;> cases h3 : cern_emails c <;>
    cases h4 : phone_prefix_41 c <;> cases h5 : phone_prefix_39 c <;>
    cases h6 : phone_prefix_33 c <;> simp [h1, h2, h3, h4, h5, h6] <;> tauto

/-! ### Counting occurrences across the partition -/

theorem count_filter_split {p : Contact → Bool} {cs : List Contact} (v : Contact) :
    List.count v (cs.filter p) = if v ∈ cs.filter p then List.count v cs else 0 := by
  by_cases h : v ∈ cs.filter p
  · rw [if_pos h]
    exact List.count_filter (List.mem_filter.mp h).2
  · rw [if_neg h]
    exact List.count_eq_zero_of_not_mem h

theorem count_b1 (cs : List Contact) (v : Contact) :
    List.count v (b1 cs) = if v ∈ b1 cs then List.count v cs else 0 :=
  count_filter_split v

theorem count_b2 (cs : List Contact) (v : Contact) :
    List.count v (b2 cs) = if v ∈ b2 cs then List.count v cs else 0 :=
  count_filter_split v

theorem count_b3 (cs : List Contact) (v : Contact) :
    List.count v (b3 cs) = if v ∈ b3 cs then List.count v cs else 0 :=
  count_filter_split v

theorem count_b4 (cs : List Contact) (v : Contact) :
    List.count v (b4 cs) = if v ∈ b4 cs then List.count v cs else 0 :=
  count_filter_split v

theorem count_b5 (cs : List Contact) (v : Contact) :
    List.count v (b5 cs) = if v ∈ b5 cs then List.count v cs else 0 :=
  count_filter_split v

theorem count_b6 (cs : List Contact) (v : Contact) :
    List.count v (b6 cs) = if v ∈ b6 cs then List.count v cs else 0 :=
  count_filter_split v

theorem count_rem (cs : List Contact) (v : Contact) :
    List.count v (remaining cs) = if v ∈ remaining cs then List.count v cs else 0 :=
  count_filter_split v

/-- Each contact value is claimed, with its full input multiplicity, by exactly
one of the seven buckets. -/
theorem count_partition (cs : List Contact) (v : Contact) :
    List.count v (b1 cs) + List.count v (b2 cs) + List.count v (b3 cs) +
      List.count v (b4 cs) + List.count v (b5 cs) + List.count v (b6 cs) +
      List.count v (remaining cs) = List.count v cs := by
  rw [count_b1, count_b2, count_b3, count_b4, count_b5, count_b6, count_rem]
  by_cases hm : v ∈ cs
  · cases h1 : doctors v <;> cases h2 : restaurants v <;> cases h3 : cern_emails v <;>
      cases h4 : phone_prefix_41 v <;> cases h5 : phone_prefix_39 v <;>
      cases h6 : phone_prefix_33 v <;>
      simp [mem_b1_iff, mem_b2_iff, mem_b3_iff, mem_b4_iff, mem_b5_iff, mem_b6_iff,
        mem_rem_iff, hm, h1, h2, h3, h4, h5, h6]
  · simp [mem_b1_iff, mem_b2_iff, mem_b3_iff, mem_b4_iff, mem_b5_iff, mem_b6_iff,
      mem_rem_iff, hm, List.count_eq_zero_of_not_mem hm]

/-- The concatenation of the seven buckets is a permutation of the input list. -/
theorem partition_perm (cs : List Contact) :
    List.Perm (b1 cs ++ b2 cs ++ b3 cs ++ b4 cs ++ b5 cs ++ b6 cs ++ remaining cs) cs := by
  rw [List.perm_iff_count]
  intro v
  simp only [List.count_append]
  exact count_partition cs v

/-! ### Claim C1: partition completeness and the count check -/

theorem filter_contacts_length (cs : List Contact) :
    ((filter_contacts cs).1.map List.length).sum + (filter_contacts cs).2.length =
      cs.length := by
  have hlen := (partition_perm cs).length_eq
  simp only [List.length_append] at hlen
  simp only [filter_contacts_unfold, List.map_cons, List.map_nil, List.sum_cons,
    List.sum_nil]
  omega

/-- C1: for every input contact list (after phone normalization) the sum of the
six rule-bucket sizes plus the `all_others` size equals the number of input
contacts, and Check 1 reports PASSED. -/
theorem C1_partition_completeness (cs : List Contact) :
    ((pipeline cs).1.map List.length).sum + (pipeline cs).2.length = cs.length ∧
      countCheck cs = true := by
  have h := filter_contacts_length (normalizeContacts cs)
  have hlen : (normalizeContacts cs).length = cs.length := by
    simp [normalizeContacts]
  constructor
  · rw [pipeline, h, hlen]
  · simp only [countCheck, pipeline, decide_eq_true_eq]
    exact h

/-! ### Claim C2: partition disjointness -/

/-- The seven buckets produced by `filter_contacts`, `all_others` last. -/
def allBuckets (cs : List Contact) : List (List Contact) :=
  (filter_contacts cs).1 ++ [(filter_contacts cs).2]

theorem allBuckets_eq (cs : List Contact) :
    allBuckets cs = [b1 cs, b2 cs, b3 cs, b4 cs, b5 cs, b6 cs, remaining cs] := rfl

theorem disjoint_buckets (cs : List Contact) (c : Contact) (i j : Nat)
    (hi : i < 7) (hj : j < 7) (hne : i ≠ j)
    (hc : c ∈ (allBuckets cs).getD i []) : c ∉ (allBuckets cs).getD j [] := by
  rw [allBuckets_eq] at hc ⊢
  interval_cases i <;> interval_cases j <;>
    simp_all [mem_b1_iff, mem_b2_iff, mem_b3_iff, mem_b4_iff, mem_b5_iff, mem_b6_iff,
      mem_rem_iff]

/-- C2: no contact (identified by its Name, Email and Phone strings) occurs in
two different buckets of the partition, `all_others` included. -/
theorem C2_partition_disjointness (cs : List Contact) (c : Contact) (i j : Nat)
    (hi : i < 7) (hj : j < 7) (hne : i ≠ j)
    (hc : c ∈ (allBuckets cs).getD i []) : c ∉ (allBuckets cs).getD j [] :=
  disjoint_buckets cs c i j hi hj hne hc

/-- A contact whose name contains `doc`, placed in the `Doctors` bucket. -/
def cDoc : Contact := { Name := patDoc, Email := [], Phone := [] }

theorem C2_partition_disjointness_witness :
    cDoc ∉ (allBuckets [cDoc]).getD 6 [] :=
  C2_partition_disjointness [cDoc] cDoc 0 6 (by decide) (by decide) (by decide) (by decide)

/-! ### Claim C3: exactly-once invariant -/

/-- An input list containing a true duplicate of a `Doctors` contact. -/
def csDup : List Contact := [cDoc, cDoc]

/-- C3 counterexample: the code never deduplicates, so a contact occurring
twice in the input occurs twice across the buckets — not exactly once. -/
theorem C3_exactly_once_cex :
    cDoc ∈ csDup ∧
      ¬(List.count cDoc (b1 csDup) + List.count cDoc (b2 csDup) +
        List.count cDoc (b3 csDup) + List.count cDoc (b4 csDup) +
        List.count cDoc (b5 csDup) + List.count cDoc (b6 csDup) +
        List.count cDoc (remaining csDup) = 1) := by
  decide

/-- C3 amended: the buckets are pairwise disjoint under the Equality Oracle and
every contact value occurs across the buckets with exactly its input
multiplicity; in particular each contact of a duplicate-free input occurs
exactly once. -/
theorem C3_exactly_once_amended (cs : List Contact) :
    (∀ (c : Contact) (i j : Nat), i < 7 → j < 7 → i ≠ j →
      c ∈ (allBuckets cs).getD i [] → c ∉ (allBuckets cs).getD j []) ∧
    (∀ c : Contact, List.count c (b1 cs) + List.count c (b2 cs) + List.count c (b3 cs) +
      List.count c (b4 cs) + List.count c (b5 cs) + List.count c (b6 cs) +
      List.count c (remaining cs) = List.count c cs) ∧
    (cs.Nodup → ∀ c ∈ cs, List.count c (b1 cs) + List.count c (b2 cs) +
      List.count c (b3 cs) + List.count c (b4 cs) + List.count c (b5 cs) +
      List.count c (b6 cs) + List.count c (remaining cs) = 1) := by
  refine ⟨disjoint_buckets cs, count_partition cs, fun hnd c hc => ?_⟩
  rw [count_partition cs c]
  exact List.count_eq_one_of_mem hnd hc

theorem C3_exactly_once_amended_witness :
    List.count cDoc (b1 [cDoc]) + List.count cDoc (b2 [cDoc]) + List.count cDoc (b3 [cDoc]) +
      List.count cDoc (b4 [cDoc]) + List.count cDoc (b5 [cDoc]) + List.count cDoc (b6 [cDoc]) +
      List.count cDoc (remaining [cDoc]) = 1 :=
  (C3_exactly_once_amended [cDoc]).2.2 (by decide) cDoc (by decide)

/-! ### Claim C4: first-match priority -/

/-- C4: a contact is placed in the bucket of the first rule (in the declared
order Doctors, Restaurants, cern_emails, phone_prefix_41, phone_prefix_39,
phone_prefix_33) whose predicate it satisfies, and in no other bucket. -/
theorem C4_first_match_priority (cs : List Contact) (c : Contact) (hc : c ∈ cs) :
    (doctors c = true →
      c ∈ b1 cs ∧ c ∉ b2 cs ∧ c ∉ b3 cs ∧ c ∉ b4 cs ∧ c ∉ b5 cs ∧ c ∉ b6 cs ∧
        c ∉ remaining cs) ∧
    (doctors c = false → restaurants c = true →
      c ∈ b2 cs ∧ c ∉ b1 cs ∧ c ∉ b3 cs ∧ c ∉ b4 cs ∧ c ∉ b5 cs ∧ c ∉ b6 cs ∧
        c ∉ remaining cs) ∧
    (doctors c = false → restaurants c = false → cern_emails c = true →
      c ∈ b3 cs ∧ c ∉ b1 cs ∧ c ∉ b2 cs ∧ c ∉ b4 cs ∧ c ∉ b5 cs ∧ c ∉ b6 cs ∧
        c ∉ remaining cs) ∧
    (doctors c = false → restaurants c = false → cern_emails c = false →
      phone_prefix_41 c = true →
      c ∈ b4 cs ∧ c ∉ b1 cs ∧ c ∉ b2 cs ∧ c ∉ b3 cs ∧ c ∉ b5 cs ∧ c ∉ b6 cs ∧
        c ∉ remaining cs) ∧
    (doctors c = false → restaurants c = false → cern_emails c = false →
      phone_prefix_41 c = false → phone_prefix_39 c = true →
      c ∈ b5 cs ∧ c ∉ b1 cs ∧ c ∉ b2 cs ∧ c ∉ b3 cs ∧ c ∉ b4 cs ∧ c ∉ b6 cs ∧
        c ∉ remaining cs) ∧
    (doctors c = false → restaurants c = false → cern_emails c = false →
      phone_prefix_41 c = false → phone_prefix_39 c = false → phone_prefix_33 c = true →
      c ∈ b6 cs ∧ c ∉ b1 cs ∧ c ∉ b2 cs ∧ c ∉ b3 cs ∧ c ∉ b4 cs ∧ c ∉ b5 cs ∧
        c ∉ remaining cs) := by
  refine ⟨fun h1 => ?_, fun h1 h2 => ?_, fun h1 h2 h3 => ?_, fun h1 h2 h3 h4 => ?_,
    fun h1 h2 h3 h4 h5 => ?_, fun h1 h2 h3 h4 h5 h6 => ?_⟩ <;>
    simp_all [mem_b1_iff, mem_b2_iff, mem_b3_iff, mem_b4_iff, mem_b5_iff, mem_b6_iff,
      mem_rem_iff]

/-- A contact whose name contains both `doc` and `rest`: it satisfies the
Doctors and the Restaurants predicates at once. -/
def cDocRest : Contact :=
  { Name := ['d', 'o', 'c', 'r', 'e', 's', 't'], Email := [], Phone := [] }

theorem C4_first_match_priority_witness :
    cDocRest ∈ b1 [cDocRest] ∧ cDocRest ∉ b2 [cDocRest] ∧ cDocRest ∉ b3 [cDocRest] ∧
      cDocRest ∉ b4 [cDocRest] ∧ cDocRest ∉ b5 [cDocRest] ∧ cDocRest ∉ b6 [cDocRest] ∧
      cDocRest ∉ remaining [cDocRest] :=
  (C4_first_match_priority [cDocRest] cDocRest (by decide)).1 (by decide)

/-! ### Claim C10: duplicate multiplicity inside a bucket -/

/-- C10: when a contact value occurs several times in the input, every
occurrence lands in the bucket of its first matching rule (the bucket holds it
with full input multiplicity, none reaches `all_others`); when no rule
matches, every occurrence lands in `all_others`. -/
theorem C10_duplicate_multiplicity (cs : List Contact) (c : Contact)
    (hdup : 2 ≤ List.count c cs) :
    (doctors c = true →
      List.count c (b1 cs) = List.count c cs ∧ List.count c (remaining cs) = 0) ∧
    (doctors c = false → restaurants c = true →
      List.count c (b2 cs) = List.count c cs ∧ List.count c (remaining cs) = 0) ∧
    (doctors c = false → restaurants c = false → cern_emails c = true →
      List.count c (b3 cs) = List.count c cs ∧ List.count c (remaining cs) = 0) ∧
    (doctors c = false → restaurants c = false → cern_emails c = false →
      phone_prefix_41 c = true →
      List.count c (b4 cs) = List.count c cs ∧ List.count c (remaining cs) = 0) ∧
    (doctors c = false → restaurants c = false → cern_emails c = false →
      phone_prefix_41 c = false → phone_prefix_39 c = true →
      List.count c (b5 cs) = List.count c cs ∧ List.count c (remaining cs) = 0) ∧
    (doctors c = false → restaurants c = false → cern_emails c = false →
      phone_prefix_41 c = false → phone_prefix_39 c = false → phone_prefix_33 c = true →
      List.count c (b6 cs) = List.count c cs ∧ List.count c (remaining cs) = 0) ∧
    (doctors c = false → restaurants c = false → cern_emails c = false →
      phone_prefix_41 c = false → phone_prefix_39 c = false → phone_prefix_33 c = false →
      List.count c (remaining cs) = List.count c cs ∧ List.count c (b1 cs) = 0 ∧
        List.count c (b2 cs) = 0 ∧ List.count c (b3 cs) = 0 ∧ List.count c (b4 cs) = 0 ∧
        List.count c (b5 cs) = 0 ∧ List.count c (b6 cs) = 0) := by
  have hm : c ∈ cs := List.count_pos_iff.mp (by omega)
  refine ⟨fun h1 => ?_, fun h1 h2 => ?_, fun h1 h2 h3 => ?_, fun h1 h2 h3 h4 => ?_,
    fun h1 h2 h3 h4 h5 => ?_, fun h1 h2 h3 h4 h5 h6 => ?_, fun h1 h2 h3 h4 h5 h6 => ?_⟩ <;>
    simp_all [count_b1, count_b2, count_b3, count_b4, count_b5, count_b6, count_rem,
      mem_b1_iff, mem_b2_iff, mem_b3_iff, mem_b4_iff, mem_b5_iff, mem_b6_iff, mem_rem_iff]

theorem C10_duplicate_multiplicity_witness :
    List.count cDoc (b1 csDup) = List.count cDoc csDup ∧
      List.count cDoc (remaining csDup) = 0 :=
  (C10_duplicate_multiplicity csDup cDoc (by decide)).1 (by decide)

/-! ### Claims C5-C7: phone normalization -/

def pat00 : Str := ['0', '0']

theorem replaceFirst00_zz (r : Str) : replaceFirst00 ('0' :: '0' :: r) = '+' :: r := rfl

theorem replaceFirst00_one (ch : Char) : replaceFirst00 [ch] = [ch] := by
  rw [replaceFirst00.eq_def]
  split
  · rename_i heq
    injection heq with _ h2
    exact absurd h2.symm (List.cons_ne_nil _ _)
  · rename_i heq
    injection heq with h1 h2
    subst h1
    subst h2
    rfl
  · rename_i heq
    exact absurd heq (List.cons_ne_nil _ _)

theorem replaceFirst00_cons₂ (ch ch2 : Char) (r : Str) (h : ¬(ch = '0' ∧ ch2 = '0')) :
    replaceFirst00 (ch :: ch2 :: r) = ch :: replaceFirst00 (ch2 :: r) := by
  rw [replaceFirst00.eq_def]
  split
  · rename_i heq
    injection heq with h1 h2
    injection h2 with h2a _
    exact absurd ⟨h1, h2a⟩ h
  · rename_i heq
    injection heq with h1 h2
    subst h1
    subst h2
    rfl
  · rename_i heq
    exact absurd heq (List.cons_ne_nil _ _)

theorem isPrefixOf_pat00 (ch ch2 : Char) (r : Str) :
    pat00.isPrefixOf (ch :: ch2 :: r) = true ↔ ch = '0' ∧ ch2 = '0' := by
  simp [pat00, List.isPrefixOf]
  tauto

/-- When the string has no `00` substring, the replacement is the identity. -/
theorem replaceFirst00_no00 {s : Str} (h : containsSub pat00 s = false) :
    replaceFirst00 s = s := by
  induction s with
  | nil => rfl
  | cons ch rest ih =>
    cases rest with
    | nil => exact replaceFirst00_one ch
    | cons ch2 r =>
      rw [containsSub, Bool.or_eq_false_iff] at h
      have hpre : ¬(ch = '0' ∧ ch2 = '0') := by
        intro hc
        rw [(isPrefixOf_pat00 ch ch2 r).mpr hc] at h
        exact Bool.true_eq_false.mp h.1
      rw [replaceFirst00_cons₂ ch ch2 r hpre, ih h.2]

/-- The replacement rewrites exactly the first occurrence of `00`. -/
theorem replaceFirst00_first {a : Str} (b : Str)
    (h : containsSub pat00 (a ++ ['0']) = false) :
    replaceFirst00 (a ++ '0' :: '0' :: b) = a ++ '+' :: b := by
  induction a with
  | nil => exact replaceFirst00_zz b
  | cons ch a' ih =>
    simp only [List.cons_append] at h ⊢
    rw [containsSub, Bool.or_eq_false_iff] at h
    cases a' with
    | nil =>
      simp only [List.nil_append] at h ⊢
      have hch : ¬(ch = '0' ∧ '0' = '0') := by
        intro hc
        rw [(isPrefixOf_pat00 ch '0' []).mpr ⟨hc.1, rfl⟩] at h
        exact Bool.true_eq_false.mp h.1
      rw [replaceFirst00_cons₂ ch '0' ('0' :: b) hch, replaceFirst00_zz b]
    | cons ch2 a'' =>
      simp only [List.cons_append] at h ⊢
      have hch : ¬(ch = '0' ∧ ch2 = '0') := by
        intro hc
        rw [(isPrefixOf_pat00 ch ch2 (a'' ++ ['0'])).mpr hc] at h
        exact Bool.true_eq_false.mp h.1
      rw [replaceFirst00_cons₂ ch ch2 _ hch]
      have hih := ih h.2
      simp only [List.cons_append] at hih
      rw [hih]

/-- C5: `normalize_phone` trims surrounding whitespace, removes the embedded
spaces, then replaces the first occurrence of `00` anywhere in the string with
`+`; it is a total function on strings (it is defined on every `Str`,
including `[]`). -/
theorem C5_normalize_phone_spec (s : Str) :
    normalize_phone s = replaceFirst00 (removeSpaces (pyStrip s)) ∧
    (containsSub pat00 (removeSpaces (pyStrip s)) = false →
      normalize_phone s = removeSpaces (pyStrip s)) ∧
    (∀ a b : Str, removeSpaces (pyStrip s) = a ++ '0' :: '0' :: b →
      containsSub pat00 (a ++ ['0']) = false →
      normalize_phone s = a ++ '+' :: b) := by
  refine ⟨rfl, fun h => ?_, fun a b hsplit hfirst => ?_⟩
  · rw [normalize_phone, replaceFirst00_no00 h]
  · rw [normalize_phone, hsplit, replaceFirst00_first b hfirst]

/-- The string `" 00 12"`. -/
def phoneC5 : Str := [' ', '0', '0', ' ', '1', '2']

theorem C5_normalize_phone_spec_witness :
    normalize_phone phoneC5 = ['+', '1', '2'] :=
  (C5_normalize_phone_spec phoneC5).2.2 [] ['1', '2'] (by decide) (by decide)

/-- The spec's worked example input `" 0041 79 123 45 67"`. -/
def phoneC6 : Str := (" 0041 79 123 45 67").toList

/-- C6 counterexample: the code does not produce the spec's claimed string
`"+4179123567"` on the worked example (the spec's expected value dropped the
digit 4 of the group 45). -/
theorem C6_example_cex : normalize_phone phoneC6 ≠ ("+4179123567").toList := by
  decide

/-- C6 amended: the worked example `" 0041 79 123 45 67"` normalizes to
`"+41791234567"`. -/
theorem C6_example_amended : normalize_phone phoneC6 = ("+41791234567").toList := by
  decide

/-- C7: on a string with no whitespace and no `00` substring,
`normalize_phone` is the identity. -/
theorem C7_normalize_idempotent (s : Str) (hws : ∀ ch ∈ s, pyIsSpace ch = false)
    (h00 : containsSub pat00 s = false) : normalize_phone s = s := by
  have hd : ∀ t : Str, (∀ ch ∈ t, pyIsSpace ch = false) → t.dropWhile pyIsSpace = t := by
    intro t ht
    cases t with
    | nil => rfl
    | cons a t' =>
      rw [List.dropWhile_cons_of_neg]
      simp [ht a (List.mem_cons_self a t')]
  have hstrip : pyStrip s = s := by
    rw [pyStrip, hd s hws, hd s.reverse (fun ch hch => hws ch (List.mem_reverse.mp hch)),
      List.reverse_reverse]
  have hspaces : removeSpaces s = s := by
    rw [removeSpaces, List.filter_eq_self.mpr]
    intro a ha
    have hab := hws a ha
    simp [pyIsSpace] at hab
    simp [hab.1]
  rw [normalize_phone, hstrip, hspaces, replaceFirst00_no00 h00]

/-- The already-normalized number `"+41791234567"`. -/
def phoneC7 : Str := ("+41791234567").toList

theorem C7_normalize_idempotent_witness : normalize_phone phoneC7 = phoneC7 :=
  C7_normalize_idempotent phoneC7 (by decide) (by decide)

/-! ### Claim C8: the duplicate checks of Check 2 -/

/-- Keep the first occurrence of each key and drop later repeats, like the
insertion-ordered keys of a Python dict. -/
def dedupKeep (seen : List Str) : List Str → List Str
  | [] => []
  | e :: t => if e ∈ seen then dedupKeep seen t else e :: dedupKeep (e :: seen) t

/-- The keys of `email_map`: the non-empty emails of the input, in
first-appearance order (`if contact["Email"]: …`). -/
def emailKeys (cs : List Contact) : List Str :=
  dedupKeep [] ((cs.filter (fun c => !decide (c.Email = []))).map Contact.Email)

/-- The group `email_map[e]` for a non-empty key `e`: the input contacts carrying that
email, in input order. -/
def emailGroup (cs : List Contact) (e : Str) : List Contact :=
  cs.filter (fun c => decide (c.Email = e))

/-- The reported duplicate emails: keys whose group has more than one member. -/
def duplicateEmails (cs : List Contact) : List Str :=
  (emailKeys cs).filter (fun e => decide (1 < (emailGroup cs e).length))

/-- Check 2's email report: each duplicate email paired with its members'
Name and Phone. -/
def duplicateEmailReport (cs : List Contact) : List (Str × List (Str × Str)) :=
  (duplicateEmails cs).map (fun e => (e, (emailGroup cs e).map (fun c => (c.Name, c.Phone))))

/-- The keys of `phone_map`: the non-empty phones, in first-appearance order. -/
def phoneKeys (cs : List Contact) : List Str :=
  dedupKeep [] ((cs.filter (fun c => !decide (c.Phone = []))).map Contact.Phone)

/-- The group `phone_map[p]` for a non-empty key `p`. -/
def phoneGroup (cs : List Contact) (p : Str) : List Contact :=
  cs.filter (fun c => decide (c.Phone = p))

/-- The reported duplicate phones. -/
def duplicatePhones (cs : List Contact) : List Str :=
  (phoneKeys cs).filter (fun p => decide (1 < (phoneGroup cs p).length))

/-- Check 2's phone report: each duplicate phone paired with its members'
Name and Email. -/
def duplicatePhoneReport (cs : List Contact) : List (Str × List (Str × Str)) :=
  (duplicatePhones cs).map (fun p => (p, (phoneGroup cs p).map (fun c => (c.Name, c.Email))))

theorem dedupKeep_mem {x : Str} : ∀ (seen l : List Str),
    x ∈ dedupKeep seen l ↔ x ∈ l ∧ x ∉ seen := by
  intro seen l
  induction l generalizing seen with
  | nil => simp [dedupKeep]
  | cons e t ih =>
    rw [dedupKeep]
    split
    · rename_i he
      rw [ih]
      constructor
      · rintro ⟨h1, h2⟩
        exact ⟨List.mem_cons_of_mem e h1, h2⟩
      · rintro ⟨h1, h2⟩
        rcases List.mem_cons.mp h1 with h | h
        · subst h
          exact absurd he h2
        · exact ⟨h, h2⟩
    · rename_i he
      constructor
      · intro hmem
        rcases List.mem_cons.mp hmem with h | h
        · subst h
          exact ⟨List.mem_cons_self x t, he⟩
        · rw [ih] at h
          refine ⟨List.mem_cons_of_mem e h.1, fun hx => ?_⟩
          exact h.2 (List.mem_cons_of_mem e hx)
      · rintro ⟨h1, h2⟩
        by_cases hxe : x = e
        · exact List.mem_cons.mpr (Or.inl hxe)
        · rcases List.mem_cons.mp h1 with h | h
          · exact absurd h hxe
          · refine List.mem_cons.mpr (Or.inr ?_)
            rw [ih]
            exact ⟨h, fun hx => (List.mem_cons.mp hx).elim hxe h2⟩

theorem emailKeys_mem {cs : List Contact} {e : Str} :
    e ∈ emailKeys cs ↔ e ≠ [] ∧ ∃ c ∈ cs, c.Email = e := by
  rw [emailKeys, dedupKeep_mem]
  simp only [List.mem_map, List.mem_filter, Bool.not_eq_true', decide_eq_false_iff_not,
    List.not_mem_nil, not_false_iff, and_true]
  constructor
  · rintro ⟨c, ⟨hc, hne⟩, rfl⟩
    exact ⟨hne, c, hc, rfl⟩
  · rintro ⟨hne, c, hc, rfl⟩
    exact ⟨c, ⟨hc, hne⟩, rfl⟩

theorem phoneKeys_mem {cs : List Contact} {p : Str} :
    p ∈ phoneKeys cs ↔ p ≠ [] ∧ ∃ c ∈ cs, c.Phone = p := by
  rw [phoneKeys, dedupKeep_mem]
  simp only [List.mem_map, List.mem_filter, Bool.not_eq_true', decide_eq_false_iff_not,
    List.not_mem_nil, not_false_iff, and_true]
  constructor
  · rintro ⟨c, ⟨hc, hne⟩, rfl⟩
    exact ⟨hne, c, hc, rfl⟩
  · rintro ⟨hne, c, hc, rfl⟩
    exact ⟨c, ⟨hc, hne⟩, rfl⟩

theorem duplicateEmails_mem {cs : List Contact} {e : Str} :
    e ∈ duplicateEmails cs ↔ e ≠ [] ∧ 1 < (emailGroup cs e).length := by
  rw [duplicateEmails, List.mem_filter]
  simp only [emailKeys_mem, decide_eq_true_eq]
  constructor
  · rintro ⟨⟨hne, _⟩, hlen⟩
    exact ⟨hne, hlen⟩
  · rintro ⟨hne, hlen⟩
    obtain ⟨c, hc⟩ := List.exists_mem_of_length_pos (Nat.lt_of_lt_of_le Nat.zero_lt_one
      (Nat.le_of_lt hlen))
    rw [emailGroup, List.mem_filter, decide_eq_true_eq] at hc
    exact ⟨⟨hne, c, hc.1, hc.2⟩, hlen⟩

theorem duplicatePhones_mem {cs : List Contact} {p : Str} :
    p ∈ duplicatePhones cs ↔ p ≠ [] ∧ 1 < (phoneGroup cs p).length := by
  rw [duplicatePhones, List.mem_filter]
  simp only [phoneKeys_mem, decide_eq_true_eq]
  constructor
  · rintro ⟨⟨hne, _⟩, hlen⟩
    exact ⟨hne, hlen⟩
  · rintro ⟨hne, hlen⟩
    obtain ⟨c, hc⟩ := List.exists_mem_of_length_pos (Nat.lt_of_lt_of_le Nat.zero_lt_one
      (Nat.le_of_lt hlen))
    rw [phoneGroup, List.mem_filter, decide_eq_true_eq] at hc
    exact ⟨⟨hne, c, hc.1, hc.2⟩, hlen⟩

/-- C8: an email (resp. phone) is reported as a duplicate iff more than one
input contact carries it and it is non-empty; contacts with an empty key never
belong to a reported group; each reported group lists its members' Name and
Phone (resp. Name and Email). -/
theorem C8_duplicate_checks (cs : List Contact) :
    (∀ e : Str, e ∈ duplicateEmails cs ↔
      e ≠ [] ∧ 1 < (cs.filter (fun c => decide (c.Email = e))).length) ∧
    (∀ e ∈ duplicateEmails cs, ∀ c ∈ emailGroup cs e, c.Email = e ∧ c.Email ≠ []) ∧
    (∀ e ∈ duplicateEmails cs,
      (e, (emailGroup cs e).map (fun c => (c.Name, c.Phone))) ∈ duplicateEmailReport cs) ∧
    (∀ p : Str, p ∈ duplicatePhones cs ↔
      p ≠ [] ∧ 1 < (cs.filter (fun c => decide (c.Phone = p))).length) ∧
    (∀ p ∈ duplicatePhones cs, ∀ c ∈ phoneGroup cs p, c.Phone = p ∧ c.Phone ≠ []) ∧
    (∀ p ∈ duplicatePhones cs,
      (p, (phoneGroup cs p).map (fun c => (c.Name, c.Email))) ∈ duplicatePhoneReport cs) := by
  refine ⟨fun e => duplicateEmails_mem, fun e he c hc => ?_, fun e he => ?_,
    fun p => duplicatePhones_mem, fun p hp c hc => ?_, fun p hp => ?_⟩
  · have hne := (duplicateEmails_mem.mp he).1
    rw [emailGroup, List.mem_filter, decide_eq_true_eq] at hc
    exact ⟨hc.2, hc.2 ▸ hne⟩
  · exact List.mem_map.mpr ⟨e, he, rfl⟩
  · have hne := (duplicatePhones_mem.mp hp).1
    rw [phoneGroup, List.mem_filter, decide_eq_true_eq] at hc
    exact ⟨hc.2, hc.2 ▸ hne⟩
  · exact List.mem_map.mpr ⟨p, hp, rfl⟩

/-- Two contacts sharing the email `"x"` and a third with empty email that
shares a phone with the first. -/
def cAlice : Contact := { Name := ['a'], Email := ['x'], Phone := ['1'] }
def cBob : Contact := { Name := ['b'], Email := ['x'], Phone := ['2'] }
def cNoEmail : Contact := { Name := ['n'], Email := [], Phone := ['1'] }
def csC8 : List Contact := [cAlice, cBob, cNoEmail]

theorem C8_duplicate_checks_witness :
    (['x'] ∈ duplicateEmails csC8) ∧ (['1'] ∈ duplicatePhones csC8) ∧
      ((['x'], (emailGroup csC8 ['x']).map (fun c => (c.Name, c.Phone))) ∈
        duplicateEmailReport csC8) :=
  ⟨((C8_duplicate_checks csC8).1 ['x']).mpr (by decide),
    ((C8_duplicate_checks csC8).2.2.2.1 ['1']).mpr (by decide),
    (C8_duplicate_checks csC8).2.2.1 ['x']
      (((C8_duplicate_checks csC8).1 ['x']).mpr (by decide))⟩

/-! ### Claim C9: rule predicates on empty fields -/

/-- C9: each rule predicate evaluates to `false` when its relevant field is
the empty string; as total Lean functions mirroring the total Python lambdas,
they never raise. -/
theorem C9_empty_field_safety (c : Contact) :
    (c.Name = [] → doctors c = false ∧ restaurants c = false) ∧
    (c.Email = [] → cern_emails c = false) ∧
    (c.Phone = [] → phone_prefix_41 c = false ∧ phone_prefix_39 c = false ∧
      phone_prefix_33 c = false) := by
  obtain ⟨n, e, p⟩ := c
  refine ⟨fun hn => ?_, fun he => ?_, fun hp => ?_⟩
  · subst hn
    exact ⟨rfl, rfl⟩
  · subst he
    rfl
  · subst hp
    exact ⟨rfl, rfl, rfl⟩

/-- The fully empty contact. -/
def cEmpty : Contact := { Name := [], Email := [], Phone := [] }

theorem C9_empty_field_safety_witness :
    (doctors cEmpty = false ∧ restaurants cEmpty = false) ∧ cern_emails cEmpty = false ∧
      (phone_prefix_41 cEmpty = false ∧ phone_prefix_39 cEmpty = false ∧
        phone_prefix_33 cEmpty = false) :=
  ⟨(C9_empty_field_safety cEmpty).1 rfl, (C9_empty_field_safety cEmpty).2.1 rfl,
    (C9_empty_field_safety cEmpty).2.2 rfl⟩
